import Mathlib

/-!
Verification of the RaA evaluation and reporting pipeline.

Shallow embedding of the Python sources:
  * `src/evaluation_engine.py` — the Comparison Planner inside
    `_eval_single_item`, `_prepare_contents`, `_run_rater`, `DEFAULT_RATING`;
  * `src/reporting.py` — `load_and_normalize_data`, `calculate_aggregates`;
  * `src/reporting_summary.py` — `_generate_summary`,
    `generate_summary_for_eval`, `generate_summaries_for_experiment`.

Pure data flow is translated as Lean functions; fallible paths are
`Except`/`Option`; floating point scores are modelled as `Rat` (all score
arithmetic in the sources is exact on the values of interest).
-/

namespace RaA

/-! ## Data model: ratings (`evaluation_engine.py`) -/

/-- `_Criterion`: one `{score, reason}` pair. -/
structure Criterion where
  score : Rat
  reason : String
deriving DecidableEq, Repr

/-- `_RatingModel`: the five-criterion rating schema. -/
structure RatingModel where
  content_correspondence : Criterion
  compositional_alignment : Criterion
  fidelity_completeness : Criterion
  stylistic_congruence : Criterion
  overall_semantic_intent : Criterion
deriving DecidableEq, Repr

/-- `DEFAULT_RATING` from `evaluation_engine.py`: every criterion scores
`-1.0` with reason `"Rating failed"`. -/
def DEFAULT_RATING : RatingModel :=
  { content_correspondence := { score := -1, reason := "Rating failed" }
    compositional_alignment := { score := -1, reason := "Rating failed" }
    fidelity_completeness := { score := -1, reason := "Rating failed" }
    stylistic_congruence := { score := -1, reason := "Rating failed" }
    overall_semantic_intent := { score := -1, reason := "Rating failed" } }

/-! ## Comparison Planner (`_eval_single_item`)

`_eval_single_item` interleaves planning (which pairs to compare, with which
anchor) with calls to `_run_rater` and `_package`.  The rating content is
irrelevant to which records are appended to which list, so the planner is
embedded as a function producing the four per-comparison-type record lists
(`img_img_ratings`, `txt_txt_ratings`, `img_txt_ratings`, `txt_img_ratings`)
that `_eval_single_item` finally persists via `om.write_json`; each record
keeps the `_package` fields that do not depend on the rating. -/

/-- The rating-independent fields of one `_package`d record. -/
structure CompRecord where
  itemId : String
  step : Nat
  anchor : String
  compType : String
  itemA : String
  itemB : String
deriving DecidableEq, Repr

/-- The four separate rating lists of `_eval_single_item`. -/
structure Plan where
  imgImg : List CompRecord
  txtTxt : List CompRecord
  imgTxt : List CompRecord
  txtImg : List CompRecord
deriving DecidableEq, Repr

def emptyPlan : Plan := ⟨[], [], [], []⟩

def appendPlan (p q : Plan) : Plan :=
  ⟨p.imgImg ++ q.imgImg, p.txtTxt ++ q.txtTxt,
   p.imgTxt ++ q.imgTxt, p.txtImg ++ q.txtImg⟩

/-- One metadata record for an item: whether the key `"input.jpg"` is
present, and the `iter{i}_img` / `iter{i}_text` filename entries. -/
structure ItemRec where
  hasInputJpg : Bool
  imgOf : Nat → String
  txtOf : Nat → String

/-- `start_with_image = "input.jpg" in rec or self.loop_type == "I-T-I"`. -/
def startWithImage (loopType : String) (rec : ItemRec) : Bool :=
  rec.hasInputJpg || loopType = "I-T-I"

/-- `base_img = _path("input.jpg") if start_with_image else _path(rec.get("iter1_img", ""))`.
`_path` prepends the fixed `exp_root/item_id` directory, so it is dropped
(injective renaming of path strings). -/
def baseImg (loopType : String) (rec : ItemRec) : String :=
  if startWithImage loopType rec then "input.jpg" else rec.imgOf 1

/-- `base_txt = _path("input.txt") if not start_with_image else _path(rec["iter1_text"])`. -/
def baseTxt (loopType : String) (rec : ItemRec) : String :=
  if startWithImage loopType rec then rec.txtOf 1 else "input.txt"

/-- Record constructor mirroring `_package` (minus the rating). -/
def rc (item : String) (step : Nat) (anchor typ a b : String) : CompRecord :=
  { itemId := item, step := step, anchor := anchor, compType := typ,
    itemA := a, itemB := b }

/-- The loop body of `_eval_single_item` for one iteration `i`: which
records are appended to each of the four lists, in source order. -/
def planIter (lt item : String) (rec : ItemRec) (i : Nat) : Plan :=
  let currImg := rec.imgOf i
  let currTxt := rec.txtOf i
  let prevImg := rec.imgOf (i - 1)
  let prevTxt := rec.txtOf (i - 1)
  let bImg := baseImg lt rec
  let bTxt := baseTxt lt rec
  -- Compare with original (base) content: I-T-I image-image, T-I-T
  -- text-text, and no fallback branch for an unknown loop type.
  let ii1 : List CompRecord :=
    if lt = "I-T-I" then [rc item i "original" "image-image" currImg bImg] else []
  let tt1 : List CompRecord :=
    if lt = "I-T-I" then []
    else if lt = "T-I-T" then [rc item i "original" "text-text" currTxt bTxt]
    else []
  -- Cross-modal comparison with original.
  let it2 : List CompRecord :=
    if lt = "I-T-I" then [rc item i "original" "image-text" bImg currTxt]
    else if lt = "T-I-T" then []
    else [rc item i "original" "image-text" bImg currTxt]
  let ti2 : List CompRecord :=
    if lt = "I-T-I" then []
    else if lt = "T-I-T" then [rc item i "original" "text-image" bTxt currImg]
    else [rc item i "original" "text-image" bTxt currImg]
  -- Compare with previous iteration (only for i > 1); every branch appends
  -- one image-image and one text-text record.
  let ii3 : List CompRecord :=
    if 1 < i then [rc item i "previous" "image-image" currImg prevImg] else []
  let tt3 : List CompRecord :=
    if 1 < i then [rc item i "previous" "text-text" currTxt prevTxt] else []
  -- Cross-modal comparison with previous (only for i > 1).
  let it4 : List CompRecord :=
    if 1 < i then
      if lt = "I-T-I" then [rc item i "previous" "image-text" prevImg currTxt]
      else if lt = "T-I-T" then [rc item i "previous" "image-text" currImg prevTxt]
      else [rc item i "previous" "image-text" prevImg currTxt,
            rc item i "previous" "image-text" currImg prevTxt]
    else []
  let ti4 : List CompRecord :=
    if 1 < i then [rc item i "previous" "text-image" prevTxt currImg] else []
  -- Same-step cross-modal comparison: skipped for T-I-T.
  let it5 : List CompRecord :=
    if lt = "I-T-I" then [rc item i "same-step" "image-text" currImg currTxt]
    else if lt = "T-I-T" then []
    else [rc item i "same-step" "image-text" currImg currTxt]
  ⟨ii1 ++ ii3, tt1 ++ tt3, it2 ++ it4 ++ it5, ti2 ++ ti4⟩

/-- The planning of `_eval_single_item` over the sorted iteration indices. -/
def evalSingleItem (lt item : String) (rec : ItemRec) : List Nat → Plan
  | [] => emptyPlan
  | i :: rest => appendPlan (planIter lt item rec i) (evalSingleItem lt item rec rest)

/-- The ascending iteration indices `1..N` extracted from the metadata keys. -/
def iterList : Nat → List Nat
  | 0 => []
  | n + 1 => iterList n ++ [n + 1]

/-- Count records by anchor field. -/
def countAnchor (l : List CompRecord) (a : String) : Nat :=
  l.countP (fun r => decide (r.anchor = a))

/-- A concrete metadata record used to instantiate planner theorems. -/
def sampleRec : ItemRec :=
  { hasInputJpg := true
    imgOf := fun i => "i" ++ toString i ++ ".jpg"
    txtOf := fun i => "t" ++ toString i ++ ".txt" }

/-! ## Rater (`_prepare_contents`, `_run_rater`)

`_run_rater` loops `for attempt in range(max_retries)`, re-running
`_prepare_contents` and `generate_content` inside a `try` whose
`except Exception` arm catches everything — including the
`FileNotFoundError`s raised by `_prepare_contents` — sleeping
`2 ** attempt` seconds unless the attempt was the last, and finally
returns `DEFAULT_RATING`.  The Gemini call is abstracted as a per-attempt
oracle `call : Nat → CallResult`; the filesystem behind
`_prepare_contents` for kind `image-image` as two predicates (`entry` for
the `lexists`/`is_symlink`/`exists` check, `openable` for
`Image.open`). -/

/-- What one `generate_content` invocation produces: a parsed
`_RatingModel`, a response without valid structured output, or a raised
transport exception. -/
inductive CallResult where
  | parsedOk (r : RatingModel)
  | invalidResponse
  | transportError
deriving DecidableEq, Repr

/-- The observable outcome of `_run_rater`: the returned rating, the number
of `generate_content` invocations, and the sleep durations in order. -/
structure RunResult where
  rating : RatingModel
  calls : Nat
  sleeps : List Nat
deriving DecidableEq, Repr

/-- `_prepare_contents` for kind `image-image`: each input must pass the
path-entry check and then be openable, else a `FileNotFoundError` whose
message mirrors the source is raised (the symlink-target detail of the
message is dropped). -/
def prepareImageImage (entry openable : String → Bool) (a b : String) :
    Except String Unit :=
  if entry a = false then .error ("Missing image file entry: " ++ a)
  else if entry b = false then .error ("Missing image file entry: " ++ b)
  else if openable a = false then .error ("Cannot open image A: " ++ a)
  else if openable b = false then .error ("Cannot open image B: " ++ b)
  else .ok ()

/-- The `for attempt in range(max_retries)` body of `_run_rater`, over the
list of remaining attempt indices.  A `prep` error is caught by the
`except Exception` arm before `generate_content` runs; a transport error or
invalid response counts one call; both sleep `2 ** attempt` unless the
attempt is the last. -/
def raterLoop (prep : Except String Unit) (call : Nat → CallResult) :
    List Nat → RunResult
  | [] => ⟨DEFAULT_RATING, 0, []⟩
  | n :: rest =>
    match prep with
    | .error _ =>
      if rest.isEmpty then ⟨DEFAULT_RATING, 0, []⟩
      else
        let r := raterLoop prep call rest
        ⟨r.rating, r.calls, 2 ^ n :: r.sleeps⟩
    | .ok _ =>
      match call n with
      | .parsedOk rt => ⟨rt, 1, []⟩
      | _ =>
        if rest.isEmpty then ⟨DEFAULT_RATING, 1, []⟩
        else
          let r := raterLoop prep call rest
          ⟨r.rating, r.calls + 1, 2 ^ n :: r.sleeps⟩

/-- `_run_rater`: returns `DEFAULT_RATING` at once without a client,
otherwise runs the retry loop.  The `Except` codomain records that an
exception could in principle propagate to the caller; every path in fact
returns `.ok` because the loop body catches all exceptions. -/
def runRater (hasClient : Bool) (prep : Except String Unit)
    (call : Nat → CallResult) (maxRetries : Nat) : Except String RunResult :=
  if hasClient = false then .ok ⟨DEFAULT_RATING, 0, []⟩
  else .ok (raterLoop prep call (List.range maxRetries))

/-! ## Aggregator (`reporting.py`)

`load_and_normalize_data` flattens each rating record into one tidy row per
criterion, mapping raw metric keys through `_METRIC_KEYS`, storing
`valid = score >= 0`, and sorting by `(comparison_type, metric, anchor,
step)`.  `calculate_aggregates` filters to the valid rows and derives
coverage, per-type summaries, group deltas, availability, stability bands
and top drops.  `float` scores are modelled as `Rat`; pandas `std` is the
square root of the sample variance carried here — the square root leaves
`Rat` but is strictly monotone, so `idxmax` over it coincides with
`idxmax` over the variance, and the `NaN` std of a singleton group (skipped by
`idxmax`) is modelled as `none`. -/

/-- One tidy row of the normalized table. -/
structure Row where
  itemId : String
  step : Int
  compType : String
  anchor : String
  metric : String
  score : Rat
  reason : String
  valid : Bool
deriving DecidableEq, Repr

/-- `_METRIC_KEYS`: raw metric key to canonical metric name. -/
def canonicalMetric (k : String) : Option String :=
  if k = "compositional_alignment" then some "compositional_alignment"
  else if k = "content_correspondence" then some "content_correspondence"
  else if k = "fidelity_completeness" then some "fidelity_completeness"
  else if k = "style_consistency" then some "style_consistency"
  else if k = "stylistic_congruence" then some "style_consistency"
  else if k = "overall" then some "overall"
  else if k = "overall_semantic_intent" then some "overall"
  else none

/-- The row `load_and_normalize_data` appends for one criterion entry:
note `"valid": score >= 0`. -/
def mkRow (itemId : String) (step : Int) (compType anchor canon : String)
    (c : Criterion) : Row :=
  { itemId := itemId, step := step, compType := compType, anchor := anchor,
    metric := canon, score := c.score, reason := c.reason,
    valid := decide (0 ≤ c.score) }

/-- One raw record of a `ratings_*.json` array: header fields plus its
criterion-shaped entries (non-dict and score-less values are already
excluded, as the source skips them). -/
structure RawRecord where
  itemId : String
  step : Int
  compType : String
  anchor : String
  entries : List (String × Criterion)

/-- `df.sort_values(by=["comparison_type", "metric", "anchor", "step"])`.
The pandas sort need not be stable, but every group keyed by
`(item_id, comparison_type, metric, anchor)` has pairwise-distinct steps,
so any correct sort gives the same within-group step order; a stable
insertion sort is used. -/
def rowKeyLE (r s : Row) : Prop :=
  r.compType < s.compType ∨ (r.compType = s.compType ∧
    (r.metric < s.metric ∨ (r.metric = s.metric ∧
      (r.anchor < s.anchor ∨ (r.anchor = s.anchor ∧ r.step ≤ s.step)))))

instance : DecidableRel rowKeyLE := fun r s => by
  unfold rowKeyLE; infer_instance

/-- `load_and_normalize_data`: flatten, canonicalize metrics, mark
validity, sort. -/
def loadRows (raw : List RawRecord) : List Row :=
  List.insertionSort rowKeyLE
    (raw.flatMap (fun rec => rec.entries.filterMap (fun kv =>
      (canonicalMetric kv.1).map (fun canon =>
        mkRow rec.itemId rec.step rec.compType rec.anchor canon kv.2))))

/-- Mean of a list of scores (`Series.mean`). -/
def mean (l : List Rat) : Rat := l.sum / (l.length : Rat)

/-- Sample variance (`ddof = 1`), `none` for singleton or empty groups
where pandas `std` yields `NaN`. -/
def sampleVar (l : List Rat) : Option Rat :=
  if l.length ≤ 1 then none
  else some ((l.map (fun x => (x - mean l) ^ 2)).sum / ((l.length : Rat) - 1))

/-- `Series.idxmax`: first key attaining the maximal value. -/
def idxmaxBy (f : α → Rat) : List α → Option α
  | [] => none
  | x :: xs => some (xs.foldl (fun best y => if f best < f y then y else best) x)

/-- `Series.idxmax` with `NaN` entries skipped. -/
def idxmaxByOpt (f : α → Option Rat) (l : List α) : Option α :=
  (l.foldl (fun acc y =>
    match f y with
    | none => acc
    | some fy =>
      match acc with
      | none => some (y, fy)
      | some (b, fb) => if fb < fy then some (y, fy) else some (b, fb)) none).map
    (fun p => p.1)

/-- Sorted unique keys, as `groupby` iterates them. -/
def sortedKeys (le : α → α → Prop) [DecidableEq α] [DecidableRel le]
    (l : List α) : List α :=
  List.insertionSort le l.dedup

/-- Per-comparison-type summary cards. -/
structure TypeSummary where
  best_metric : Option String
  most_volatile_metric : Option String
  top_anchor : Option String
deriving DecidableEq, Repr

def scoresWhere (g : List Row) (p : Row → Bool) : List Rat :=
  (g.filter p).map (fun r => r.score)

/-- The `summary_by_type` entry for the valid rows of one comparison type. -/
def typeSummary (g : List Row) : TypeSummary :=
  { best_metric :=
      idxmaxBy (fun m => mean (scoresWhere g (fun r => decide (r.metric = m))))
        (sortedKeys (· ≤ ·) (g.map (fun r => r.metric)))
    most_volatile_metric :=
      idxmaxByOpt (fun m => sampleVar (scoresWhere g (fun r => decide (r.metric = m))))
        (sortedKeys (· ≤ ·) (g.map (fun r => r.metric)))
    top_anchor :=
      idxmaxBy (fun a => mean (scoresWhere g (fun r => decide (r.anchor = a))))
        (sortedKeys (· ≤ ·) (g.map (fun r => r.anchor))) }

/-- The delta group key `["item_id", "comparison_type", "metric", "anchor"]`. -/
def key4 (r : Row) : String × String × String × String :=
  (r.itemId, r.compType, r.metric, r.anchor)

/-- The availability/stability group key `["comparison_type", "metric", "step"]`. -/
def key3 (r : Row) : String × String × Int :=
  (r.compType, r.metric, r.step)

def key3LE (a b : String × String × Int) : Prop :=
  a.1 < b.1 ∨ (a.1 = b.1 ∧ (a.2.1 < b.2.1 ∨ (a.2.1 = b.2.1 ∧ a.2.2 ≤ b.2.2)))

instance : DecidableRel key3LE := fun a b => by
  unfold key3LE; infer_instance

/-- Last-seen score per delta group, as `groupby(...)["score"].diff()`
observes it scanning the frame in row order. -/
def lookupKey : List ((String × String × String × String) × Rat) →
    (String × String × String × String) → Option Rat
  | [], _ => none
  | (q, s) :: rest, k => if k = q then some s else lookupKey rest k

/-- `groupby(["item_id", "comparison_type", "metric", "anchor"])["score"]
.diff().fillna(0)`: the delta of each row is its score minus the score of
the previous row of the same group, `0` for the first row of a group. -/
def diffGo : List Row → List ((String × String × String × String) × Rat) → List Rat
  | [], _ => []
  | r :: rest, seen =>
    (match lookupKey seen (key4 r) with
     | none => (0 : Rat)
     | some s => r.score - s) :: diffGo rest ((key4 r, r.score) :: seen)

def deltaCol (v : List Row) : List Rat := diffGo v []

/-- The aggregate fields derived from the valid rows. -/
structure AggCore where
  summaryByType : List (String × TypeSummary)
  availability : List ((String × String × Int) × Nat)
  stability : List ((String × String × Int) × Rat × Option Rat)
  deltas : List (Row × Rat)
  prevScores : List Rat
  topDrops : List (Row × Rat)
deriving DecidableEq, Repr

def calcCore (v : List Row) : AggCore :=
  { summaryByType :=
      (sortedKeys (· ≤ ·) (v.map (fun r => r.compType))).map (fun t =>
        (t, typeSummary (v.filter (fun r => decide (r.compType = t)))))
    availability :=
      (sortedKeys key3LE (v.map key3)).map (fun k =>
        (k, (v.filter (fun r => decide (key3 r = k))).length))
    stability :=
      (sortedKeys key3LE (v.map key3)).map (fun k =>
        (k, mean (scoresWhere v (fun r => decide (key3 r = k))),
         sampleVar (scoresWhere v (fun r => decide (key3 r = k)))))
    deltas := v.zip (deltaCol v)
    prevScores := (v.zip (deltaCol v)).map (fun p => p.1.score - p.2)
    topDrops :=
      (List.insertionSort (fun p q : Row × Rat => p.2 ≤ q.2)
        (v.zip (deltaCol v))).take 10 }

structure Aggregates where
  coverage : Rat
  core : AggCore
deriving DecidableEq, Repr

/-- `calculate_aggregates` returns `{}` for an empty frame and
`{"summary_cards": {"coverage": 0}}` when no row is valid. -/
inductive AggResult where
  | empty
  | noValid
  | full (a : Aggregates)
deriving DecidableEq, Repr

def calculateAggregates (df : List Row) : AggResult :=
  if df.isEmpty then .empty
  else
    let v := df.filter (fun r => r.valid)
    if v.isEmpty then .noValid
    else .full { coverage := (v.length : Rat) / (df.length : Rat), core := calcCore v }

def validCount (df : List Row) : Nat := (df.filter (fun r => r.valid)).length

def setCoverage : AggResult → Rat → AggResult
  | .full a, c => .full { a with coverage := c }
  | r, _ => r

/-- A concrete valid tidy row with the given step and score. -/
def scoreRow (st : Int) (sc : Rat) : Row :=
  { itemId := "a", step := st, compType := "image-image", anchor := "original",
    metric := "overall", score := sc, reason := "", valid := true }

/-- A concrete sentinel (invalid) tidy row. -/
def sentinelRow : Row :=
  { itemId := "a", step := 1, compType := "image-image", anchor := "original",
    metric := "overall", score := -1, reason := "", valid := false }

/-! ### Delta specification (`groupby` + `diff` + `fillna`) -/

/-- Successive differences of a score list against a running previous
score. -/
def diffsFrom (s : Rat) : List Rat → List Rat
  | [] => []
  | x :: xs => (x - s) :: diffsFrom x xs

/-- The per-group delta list: first delta `0`, then successive
differences. -/
def deltaList : List Rat → List Rat
  | [] => []
  | x :: xs => 0 :: diffsFrom x xs

/-- The scores of one delta group, in row order. -/
def groupScores (v : List Row) (k : String × String × String × String) : List Rat :=
  (v.filter (fun r => decide (key4 r = k))).map (fun r => r.score)

/-- The delta column restricted to one delta group, in row order. -/
def groupDeltas (v : List Row) (k : String × String × String × String) : List Rat :=
  ((v.zip (deltaCol v)).filter (fun p => decide (key4 p.1 = k))).map (fun p => p.2)

/-- State-passing embedding of `calculate_aggregates`: the source copies the valid-row frame before writing
the delta and prev-score columns, so the input frame is returned to the
caller unchanged and a second run on the same data produces identical
statistics.  The state-passing embedding returns the (un)mutated frame
alongside the aggregates. -/
def calcAggregatesProc (df : List Row) : AggResult × List Row :=
  (calculateAggregates df, df)

/-! ## Qualitative summary (`reporting_summary.py`)

`_generate_summary` checks `GOOGLE_API_KEY` before anything else and
returns the literal error string when unset; `generate_summary_for_eval`
writes whatever `_generate_summary` returned into
`qualitative_summary.txt` and returns `True` unless loading the ratings
files raised.  Loading is abstracted as `Option` (`none` =
`FileNotFoundError`), the narrative LLM call as an `Except` oracle. -/

/-- `_generate_summary`. -/
def generateSummary (apiKeySet : Bool) (call : Except String String) : String :=
  if apiKeySet = false then "Error: GOOGLE_API_KEY not set"
  else
    match call with
    | .ok t => t
    | .error e => "Error generating summary: " ++ e

/-- `generate_summary_for_eval`: the written summary content (if any) and
the returned success flag. -/
def generateSummaryForEvalDir (files : Option (List String)) (apiKeySet : Bool)
    (call : Except String String) : Option String × Bool :=
  match files with
  | none => (none, false)
  | some _ => (some (generateSummary apiKeySet call), true)

/-- `generate_summaries_for_experiment`: the `(successful, failed)` tally. -/
def generateSummariesForExperiment (dirs : List (Option (List String)))
    (apiKeySet : Bool) (call : Except String String) : Nat × Nat :=
  if dirs.isEmpty then (0, 0)
  else
    ((dirs.filter (fun d => (generateSummaryForEvalDir d apiKeySet call).2)).length,
     (dirs.filter (fun d => !(generateSummaryForEvalDir d apiKeySet call).2)).length)

lemma countAnchor_append (l₁ l₂ : List CompRecord) (a : String) :
    countAnchor (l₁ ++ l₂) a = countAnchor l₁ a + countAnchor l₂ a :=
  List.countP_append ..

lemma appendPlan_emptyPlan (p : Plan) : appendPlan p emptyPlan = p := by
  cases p; simp [appendPlan, emptyPlan]

lemma emptyPlan_appendPlan (p : Plan) : appendPlan emptyPlan p = p := by
  cases p; simp [appendPlan, emptyPlan]

lemma appendPlan_assoc (p q r : Plan) :
    appendPlan (appendPlan p q) r = appendPlan p (appendPlan q r) := by
  cases p; cases q; cases r; simp [appendPlan]

lemma evalSingleItem_append (lt item : String) (rec : ItemRec) (l₁ l₂ : List Nat) :
    evalSingleItem lt item rec (l₁ ++ l₂) =
      appendPlan (evalSingleItem lt item rec l₁) (evalSingleItem lt item rec l₂) := by
  induction l₁ with
  | nil => simp [evalSingleItem, emptyPlan_appendPlan]
  | cons i rest ih => simp [evalSingleItem, ih, appendPlan_assoc]

lemma eval_iterList_succ (lt item : String) (rec : ItemRec) (n : Nat) :
    evalSingleItem lt item rec (iterList (n + 1)) =
      appendPlan (evalSingleItem lt item rec (iterList n)) (planIter lt item rec (n + 1)) := by
  rw [iterList, evalSingleItem_append]
  congr 1
  simp [evalSingleItem, appendPlan_emptyPlan]

/-- Anchored counts and total lengths for the `I-T-I` branch of the planner,
for completed iterations `1..N`. -/
lemma ITI_counts (item : String) (rec : ItemRec) (N : Nat) :
    countAnchor (evalSingleItem "I-T-I" item rec (iterList N)).imgImg "original" = N ∧
    countAnchor (evalSingleItem "I-T-I" item rec (iterList N)).imgImg "previous" = N - 1 ∧
    countAnchor (evalSingleItem "I-T-I" item rec (iterList N)).txtTxt "previous" = N - 1 ∧
    countAnchor (evalSingleItem "I-T-I" item rec (iterList N)).imgTxt "same-step" = N ∧
    (evalSingleItem "I-T-I" item rec (iterList N)).imgImg.length = 2 * N - 1 ∧
    (evalSingleItem "I-T-I" item rec (iterList N)).txtTxt.length = N - 1 ∧
    (evalSingleItem "I-T-I" item rec (iterList N)).imgTxt.length = 3 * N - 1 := by
  induction N with
  | zero => simp [iterList, evalSingleItem, emptyPlan, countAnchor]
  | succ n ih =>
    obtain ⟨h1, h2, h3, h4, h5, h6, h7⟩ := ih
    rw [eval_iterList_succ]
    by_cases hn : 1 < n + 1 <;>
      simp only [appendPlan, countAnchor_append, List.length_append,
                 h1, h2, h3, h4, h5, h6, h7] <;>
      simp [planIter, countAnchor, rc, hn] <;>
      omega

/-- Same-step cross-modal records emitted by the planner, for any loop type:
one per iteration, except none at all under `T-I-T`. -/
lemma sameStep_count (lt item : String) (rec : ItemRec) (N : Nat) :
    countAnchor (evalSingleItem lt item rec (iterList N)).imgTxt "same-step" =
      if lt = "T-I-T" then 0 else N := by
  induction N with
  | zero =>
    by_cases hT : lt = "T-I-T" <;>
      simp [iterList, evalSingleItem, emptyPlan, countAnchor, hT]
  | succ n ih =>
    rw [eval_iterList_succ]
    simp only [appendPlan, countAnchor_append, ih]
    by_cases hT : lt = "T-I-T"
    · by_cases hn : 1 < n + 1 <;> simp [planIter, countAnchor, rc, hT, hn]
    · by_cases hI : lt = "I-T-I" <;> by_cases hn : 1 < n + 1 <;>
        simp [planIter, countAnchor, rc, hI, hT, hn]

/-- Anchored counts for an unrecognized loop type: the defensive branches
cover cross-modal original (both directions), same-modality previous (both),
cross-modal previous (both directions, hence two image-text records per
later iteration) and same-step, but there is no fallback arm in the
same-modality-vs-original block. -/
lemma unknown_counts (lt item : String) (rec : ItemRec)
    (hI : lt ≠ "I-T-I") (hT : lt ≠ "T-I-T") (N : Nat) :
    countAnchor (evalSingleItem lt item rec (iterList N)).imgImg "original" = 0 ∧
    countAnchor (evalSingleItem lt item rec (iterList N)).txtTxt "original" = 0 ∧
    countAnchor (evalSingleItem lt item rec (iterList N)).imgTxt "original" = N ∧
    countAnchor (evalSingleItem lt item rec (iterList N)).txtImg "original" = N ∧
    countAnchor (evalSingleItem lt item rec (iterList N)).imgImg "previous" = N - 1 ∧
    countAnchor (evalSingleItem lt item rec (iterList N)).txtTxt "previous" = N - 1 ∧
    countAnchor (evalSingleItem lt item rec (iterList N)).imgTxt "previous" = 2 * (N - 1) ∧
    countAnchor (evalSingleItem lt item rec (iterList N)).txtImg "previous" = N - 1 ∧
    countAnchor (evalSingleItem lt item rec (iterList N)).imgTxt "same-step" = N := by
  induction N with
  | zero => simp [iterList, evalSingleItem, emptyPlan, countAnchor]
  | succ n ih =>
    obtain ⟨h1, h2, h3, h4, h5, h6, h7, h8, h9⟩ := ih
    rw [eval_iterList_succ]
    by_cases hn : 1 < n + 1 <;>
      simp only [appendPlan, countAnchor_append,
                 h1, h2, h3, h4, h5, h6, h7, h8, h9] <;>
      simp [planIter, countAnchor, rc, hI, hT, hn] <;>
      omega

/-- C1: under loop type `I-T-I` with completed iterations `1..N`, the
engine persists exactly `N` image-image records anchored `original`,
`N-1` image-image records anchored `previous`, `N-1` text-text records
anchored `previous`, and `N` image-text records anchored `same-step`;
for `N = 2` the persisted totals are 3 image-image, 1 text-text and
5 image-text records. -/
theorem c1_iti_enumeration_counts (N : Nat) (item : String) (rec : ItemRec) :
    countAnchor (evalSingleItem "I-T-I" item rec (iterList N)).imgImg "original" = N ∧
    countAnchor (evalSingleItem "I-T-I" item rec (iterList N)).imgImg "previous" = N - 1 ∧
    countAnchor (evalSingleItem "I-T-I" item rec (iterList N)).txtTxt "previous" = N - 1 ∧
    countAnchor (evalSingleItem "I-T-I" item rec (iterList N)).imgTxt "same-step" = N ∧
    (evalSingleItem "I-T-I" item rec (iterList 2)).imgImg.length = 3 ∧
    (evalSingleItem "I-T-I" item rec (iterList 2)).txtTxt.length = 1 ∧
    (evalSingleItem "I-T-I" item rec (iterList 2)).imgTxt.length = 5 := by
  obtain ⟨h1, h2, h3, h4, _, _, _⟩ := ITI_counts item rec N
  obtain ⟨_, _, _, _, g5, g6, g7⟩ := ITI_counts item rec 2
  refine ⟨h1, h2, h3, h4, ?_, ?_, ?_⟩ <;> omega

/-- C4 counterexample: with an unrecognized loop type and one completed
iteration, the planner emits no image-image and no text-text records at
all — in particular not the same-modality-vs-original comparisons the
claim requires for every iteration. -/
theorem c4_counterexample :
    (evalSingleItem "X-Y-Z" "a" sampleRec (iterList 1)).imgImg = [] ∧
    (evalSingleItem "X-Y-Z" "a" sampleRec (iterList 1)).txtTxt = [] ∧
    countAnchor (evalSingleItem "X-Y-Z" "a" sampleRec (iterList 1)).imgImg "original" = 0 := by
  refine ⟨rfl, rfl, rfl⟩

/-- C4 (amended): for an unrecognized loop type the planner runs the union
of the branches that have a defensive fallback arm — both cross-modal
original directions every iteration, both same-modality previous
comparisons, both cross-modal previous directions, and the same-step
comparison — but it emits no same-modality-vs-original comparisons,
because that block has no fallback arm. -/
theorem c4_unknown_loop_type_branches (lt item : String) (rec : ItemRec)
    (hI : lt ≠ "I-T-I") (hT : lt ≠ "T-I-T") (N : Nat) :
    countAnchor (evalSingleItem lt item rec (iterList N)).imgTxt "original" = N ∧
    countAnchor (evalSingleItem lt item rec (iterList N)).txtImg "original" = N ∧
    countAnchor (evalSingleItem lt item rec (iterList N)).imgImg "previous" = N - 1 ∧
    countAnchor (evalSingleItem lt item rec (iterList N)).txtTxt "previous" = N - 1 ∧
    countAnchor (evalSingleItem lt item rec (iterList N)).imgTxt "previous" = 2 * (N - 1) ∧
    countAnchor (evalSingleItem lt item rec (iterList N)).txtImg "previous" = N - 1 ∧
    countAnchor (evalSingleItem lt item rec (iterList N)).imgTxt "same-step" = N ∧
    countAnchor (evalSingleItem lt item rec (iterList N)).imgImg "original" = 0 ∧
    countAnchor (evalSingleItem lt item rec (iterList N)).txtTxt "original" = 0 := by
  obtain ⟨h1, h2, h3, h4, h5, h6, h7, h8, h9⟩ := unknown_counts lt item rec hI hT N
  exact ⟨h3, h4, h5, h6, h7, h8, h9, h1, h2⟩

/-- C4 witness: the amended statement instantiated at loop type `"X-Y-Z"`
with two completed iterations. -/
theorem c4_unknown_loop_type_branches_witness :
    ("X-Y-Z" : String) ≠ "I-T-I" ∧ ("X-Y-Z" : String) ≠ "T-I-T" ∧
    countAnchor (evalSingleItem "X-Y-Z" "a" sampleRec (iterList 2)).imgTxt "original" = 2 ∧
    countAnchor (evalSingleItem "X-Y-Z" "a" sampleRec (iterList 2)).imgTxt "previous" = 2 ∧
    countAnchor (evalSingleItem "X-Y-Z" "a" sampleRec (iterList 2)).imgImg "original" = 0 := by
  have h := c4_unknown_loop_type_branches "X-Y-Z" "a" sampleRec
    (by decide) (by decide) 2
  exact ⟨by decide, by decide, h.1, h.2.2.2.2.1, h.2.2.2.2.2.2.2.1⟩

/-- C5 counterexample: under loop type `T-I-T` with one completed iteration
the planner emits no image-text record at all, hence no same-step
cross-modal comparison, contradicting the claim that every loop type gets
one per iteration. -/
theorem c5_counterexample :
    (evalSingleItem "T-I-T" "a" sampleRec (iterList 1)).imgTxt = [] ∧
    countAnchor (evalSingleItem "T-I-T" "a" sampleRec (iterList 1)).imgTxt "same-step" = 0 := by
  refine ⟨rfl, rfl⟩

/-- C5 (amended): the planner emits the same-step `curr_img` vs `curr_txt`
image-text comparison once per iteration under `I-T-I` and under any
unrecognized loop type, but never under `T-I-T`, where the same-step
branch is an explicit no-op. -/
theorem c5_same_step_emission (lt item : String) (rec : ItemRec) (N : Nat) :
    countAnchor (evalSingleItem lt item rec (iterList N)).imgTxt "same-step" =
      if lt = "T-I-T" then 0 else N :=
  sameStep_count lt item rec N

/-- C9: when the metadata record of an item contains the key `"input.jpg"`, the engine
treats the item as image-starting regardless of loop type: under `T-I-T`
the bases become `input.jpg` and the text output of iteration 1, so every
`original`-anchored text-text record compares against `iter1_text`. -/
theorem c9_input_jpg_forces_image_start (item : String) (rec : ItemRec)
    (h : rec.hasInputJpg = true) (N : Nat) :
    startWithImage "T-I-T" rec = true ∧
    baseImg "T-I-T" rec = "input.jpg" ∧
    baseTxt "T-I-T" rec = rec.txtOf 1 ∧
    ∀ r ∈ (evalSingleItem "T-I-T" item rec (iterList N)).txtTxt,
      r.anchor = "original" → r.itemB = rec.txtOf 1 := by
  refine ⟨by simp [startWithImage, h], by simp [baseImg, startWithImage, h],
          by simp [baseTxt, startWithImage, h], ?_⟩
  induction N with
  | zero => simp [iterList, evalSingleItem, emptyPlan]
  | succ n ih =>
    rw [eval_iterList_succ]
    simp only [appendPlan, List.mem_append]
    rintro r (hr | hr) hanchor
    · exact ih r hr hanchor
    · by_cases hn : 1 < n + 1 <;>
        simp [planIter, rc, hn] at hr
      · rcases hr with hr | hr <;> subst hr
        · simp [baseTxt, startWithImage, h]
        · simp at hanchor
      · subst hr
        simp [baseTxt, startWithImage, h]

/-- C9 witness: instantiated at a record carrying `"input.jpg"`. -/
theorem c9_input_jpg_forces_image_start_witness :
    sampleRec.hasInputJpg = true ∧ baseTxt "T-I-T" sampleRec = "t1.txt" := by
  have h := (c9_input_jpg_forces_image_start "a" sampleRec rfl 1).2.2.1
  exact ⟨rfl, h.trans rfl⟩

/-- C2 counterexample: `_run_rater` on two nonexistent image paths does
not raise the `FileNotFoundError` produced by `_prepare_contents`; it
retries it as a transient failure (sleeping 1s then 2s), never reaches
`generate_content`, and returns `DEFAULT_RATING` to its caller. -/
theorem c2_counterexample :
    prepareImageImage (fun _ => false) (fun _ => false) "a.jpg" "b.jpg" =
      .error "Missing image file entry: a.jpg" ∧
    runRater true
      (prepareImageImage (fun _ => false) (fun _ => false) "a.jpg" "b.jpg")
      (fun _ => .transportError) 3 = .ok ⟨DEFAULT_RATING, 0, [1, 2]⟩ :=
  ⟨rfl, rfl⟩

/-- C2 (amended): a missing or unopenable image input makes
`_prepare_contents` raise a `FileNotFoundError`, but `_run_rater` catches
it inside the retry loop: it makes no `generate_content` call, sleeps 1s
and 2s between the three attempts, and returns `DEFAULT_RATING` to its
caller instead of propagating the error. -/
theorem c2_missing_asset_degrades (entry openable : String → Bool)
    (a b e : String) (hprep : prepareImageImage entry openable a b = .error e)
    (call : Nat → CallResult) :
    runRater true (prepareImageImage entry openable a b) call 3 =
      .ok ⟨DEFAULT_RATING, 0, [1, 2]⟩ := by
  rw [hprep]; rfl

/-- C2 witness: the amended statement at two nonexistent concrete paths. -/
theorem c2_missing_asset_degrades_witness :
    prepareImageImage (fun _ => false) (fun _ => false) "x.png" "y.png" =
      .error "Missing image file entry: x.png" ∧
    runRater true
      (prepareImageImage (fun _ => false) (fun _ => false) "x.png" "y.png")
      (fun _ => .invalidResponse) 3 = .ok ⟨DEFAULT_RATING, 0, [1, 2]⟩ :=
  ⟨rfl, c2_missing_asset_degrades (fun _ => false) (fun _ => false)
    "x.png" "y.png" "Missing image file entry: x.png" rfl (fun _ => .invalidResponse)⟩

/-- C3 counterexample: when every attempt fails, `_run_rater` does make
exactly 3 attempts with sleeps of 1s and 2s and returns `DEFAULT_RATING`,
but the reason text of the sentinel is `"Rating failed"`, not
`"Rating unavailable"` as the claim states. -/
theorem c3_counterexample :
    runRater true (.ok ()) (fun _ => .transportError) 3 =
      .ok ⟨DEFAULT_RATING, 3, [1, 2]⟩ ∧
    DEFAULT_RATING.content_correspondence.reason = "Rating failed" ∧
    DEFAULT_RATING.content_correspondence.reason ≠ "Rating unavailable" :=
  ⟨rfl, rfl, by decide⟩

/-- C3 (amended): if every one of the three default attempts fails — by
transport exception or structurally invalid response — `_run_rater` makes
exactly 3 `generate_content` calls, sleeping 1s after the first failure
and 2s after the second (none after the last), and returns
`DEFAULT_RATING`, whose five criteria all have score `-1.0` and reason
`"Rating failed"`. -/
theorem c3_retry_exhaustion (call : Nat → CallResult)
    (h : ∀ n, n < 3 → call n = .transportError ∨ call n = .invalidResponse) :
    runRater true (.ok ()) call 3 = .ok ⟨DEFAULT_RATING, 3, [1, 2]⟩ ∧
    DEFAULT_RATING.content_correspondence = ⟨-1, "Rating failed"⟩ ∧
    DEFAULT_RATING.compositional_alignment = ⟨-1, "Rating failed"⟩ ∧
    DEFAULT_RATING.fidelity_completeness = ⟨-1, "Rating failed"⟩ ∧
    DEFAULT_RATING.stylistic_congruence = ⟨-1, "Rating failed"⟩ ∧
    DEFAULT_RATING.overall_semantic_intent = ⟨-1, "Rating failed"⟩ := by
  refine ⟨?_, rfl, rfl, rfl, rfl, rfl⟩
  have h0 := h 0 (by omega)
  have h1 := h 1 (by omega)
  have h2 := h 2 (by omega)
  have hr : List.range 3 = [0, 1, 2] := rfl
  rcases h0 with h0 | h0 <;> rcases h1 with h1 | h1 <;> rcases h2 with h2 | h2 <;>
    simp [runRater, hr, raterLoop, h0, h1, h2]

/-- C3 witness: the amended statement at an oracle mixing both failure
modes. -/
theorem c3_retry_exhaustion_witness :
    runRater true (.ok ())
      (fun n => if n = 1 then .invalidResponse else .transportError) 3 =
      .ok ⟨DEFAULT_RATING, 3, [1, 2]⟩ :=
  (c3_retry_exhaustion (fun n => if n = 1 then .invalidResponse else .transportError)
    (by intro n _; by_cases hn : n = 1 <;> simp [hn])).1

/-- C6: a loaded criterion row with score `-1` is marked invalid
(`valid = score >= 0`); inserting such a row anywhere into the table
leaves every statistic of `calculate_aggregates` — summaries, deltas,
stability, availability, top drops — unchanged, while the coverage
denominator counts it: coverage becomes `count(valid) / (count(total) + 1)`. -/
theorem c6_sentinel_excluded_but_covered (itemId : String) (step : Int)
    (ct anchor canon : String) (c : Criterion) (hc : c.score = -1)
    (l₁ l₂ : List Row) (r : Row) (hrv : r.valid = false)
    (hv : 0 < validCount (l₁ ++ l₂)) :
    (mkRow itemId step ct anchor canon c).valid = false ∧
    calculateAggregates (l₁ ++ r :: l₂) =
      setCoverage (calculateAggregates (l₁ ++ l₂))
        ((validCount (l₁ ++ l₂) : Rat) / ((l₁.length + l₂.length + 1 : Nat) : Rat)) := by
  constructor
  · simp [mkRow, hc]
  · have hf : (l₁ ++ r :: l₂).filter (fun x => x.valid) =
        (l₁ ++ l₂).filter (fun x => x.valid) := by
      simp [List.filter_append, List.filter_cons, hrv]
    have hvpos : 0 < ((l₁ ++ l₂).filter (fun x => x.valid)).length := hv
    have hne : (l₁ ++ l₂).isEmpty = false := by
      cases hE : (l₁ ++ l₂) with
      | nil => rw [hE] at hvpos; simp at hvpos
      | cons x xs => simp
    have hvne : ((l₁ ++ l₂).filter (fun x => x.valid)).isEmpty = false := by
      cases hE : (l₁ ++ l₂).filter (fun x => x.valid) with
      | nil => rw [hE] at hvpos; simp at hvpos
      | cons x xs => simp
    have hne2 : (l₁ ++ r :: l₂).isEmpty = false := by simp
    simp only [calculateAggregates, hne2, hne, hf, hvne, validCount,
               Bool.false_eq_true, if_false, setCoverage]
    congr 1
    simp [List.length_append, Nat.add_assoc]

/-- C6 witness: one valid row plus one sentinel row. -/
theorem c6_sentinel_excluded_but_covered_witness :
    ({ score := -1, reason := "Rating failed" } : Criterion).score = -1 ∧
    sentinelRow.valid = false ∧
    0 < validCount ([scoreRow 1 5] ++ []) ∧
    (mkRow "a" 1 "image-image" "original" "overall"
      { score := -1, reason := "Rating failed" }).valid = false := by
  refine ⟨rfl, rfl, by decide, ?_⟩
  exact (c6_sentinel_excluded_but_covered "a" 1 "image-image" "original" "overall"
    { score := -1, reason := "Rating failed" } rfl
    [scoreRow 1 5] [] sentinelRow rfl (by decide)).1

lemma diffGo_spec (k : String × String × String × String) :
    ∀ (v : List Row) (seen : List ((String × String × String × String) × Rat)),
    ((v.zip (diffGo v seen)).filter (fun p => decide (key4 p.1 = k))).map
        (fun p => p.2) =
      (match lookupKey seen k with
       | none => deltaList (groupScores v k)
       | some s => diffsFrom s (groupScores v k)) := by
  intro v
  induction v with
  | nil =>
    intro seen
    cases lookupKey seen k <;> simp [diffGo, groupScores, deltaList, diffsFrom]
  | cons r rest ih =>
    intro seen
    by_cases hk : key4 r = k
    · subst hk
      cases hl : lookupKey seen (key4 r) with
      | none =>
        simp [diffGo, hl, List.zip_cons_cons, ih, lookupKey, groupScores,
              deltaList, diffsFrom]
      | some s =>
        simp [diffGo, hl, List.zip_cons_cons, ih, lookupKey, groupScores,
              deltaList, diffsFrom]
    · have hk2 : ¬(k = key4 r) := fun h => hk h.symm
      cases hl : lookupKey seen k <;>
        simp [diffGo, hl, List.zip_cons_cons, ih, lookupKey, hk, hk2, groupScores]

lemma diffsFrom_get_succ (l : List Rat) (s : Rat) (i : Nat) (h : i + 1 < l.length) :
    (diffsFrom s l).get? (i + 1) =
      some (l.get ⟨i + 1, h⟩ - l.get ⟨i, by omega⟩) := by
  induction l generalizing s i with
  | nil => simp at h
  | cons x xs ih =>
    cases i with
    | zero =>
      cases xs with
      | nil => simp at h
      | cons y ys => simp [diffsFrom]
    | succ j =>
      have h' : j + 1 < xs.length := by
        simp only [List.length_cons] at h; omega
      have hx := ih x j h'
      simpa [diffsFrom] using hx

/-- C7: the delta column assigned by the Aggregator, restricted to any
`(item_id, comparison_type, metric, anchor)` group taken in row (step)
order, is exactly `deltaList` of the scores of that group: the first delta is
`0` (not null) and each later delta is `score[i] - score[i-1]`; scores
`[8, 9]` yield deltas `[0, 1]`, both abstractly and through the full
delta column of a two-row table. -/
theorem c7_group_deltas (v : List Row) (k : String × String × String × String) :
    groupDeltas v k = deltaList (groupScores v k) ∧
    (∀ l : List Rat, l ≠ [] → (deltaList l).head? = some 0) ∧
    (∀ (l : List Rat) (i : Nat) (h : i + 1 < l.length),
      (deltaList l).get? (i + 1) =
        some (l.get ⟨i + 1, h⟩ - l.get ⟨i, Nat.lt_of_succ_lt h⟩)) ∧
    deltaList [8, 9] = [0, 1] ∧
    deltaCol [scoreRow 1 8, scoreRow 2 9] = [0, 1] := by
  refine ⟨?_, ?_, ?_, ?_, ?_⟩
  · have h := diffGo_spec k v []
    simpa [groupDeltas, deltaCol, lookupKey] using h
  · intro l hl
    cases l with
    | nil => exact absurd rfl hl
    | cons x xs => rfl
  · intro l i h
    cases l with
    | nil => simp at h
    | cons x xs =>
      have h' : i < xs.length := by
        simp only [List.length_cons] at h; omega
      cases i with
      | zero =>
        cases xs with
        | nil => simp at h'
        | cons y ys => simp [deltaList, diffsFrom]
      | succ j =>
        have hx := diffsFrom_get_succ xs x j h'
        simpa [deltaList] using hx
  · norm_num [deltaList, diffsFrom]
  · norm_num [deltaCol, diffGo, lookupKey, key4, scoreRow, deltaList, diffsFrom]

/-- C7 witness: the group specification and index characterization
instantiated at the two-score scenario. -/
theorem c7_group_deltas_witness :
    groupDeltas [scoreRow 1 8, scoreRow 2 9]
      ("a", "image-image", "overall", "original") = [0, 1] ∧
    (deltaList [8, 9]).get? 1 = some 1 := by
  constructor
  · have h := (c7_group_deltas [scoreRow 1 8, scoreRow 2 9]
      ("a", "image-image", "overall", "original")).1
    rw [h]
    norm_num [groupScores, key4, scoreRow, deltaList, diffsFrom]
  · have h := (c7_group_deltas [] ("a", "b", "c", "d")).2.2.1 [8, 9] 0 (by norm_num)
    have h9 : (9 : Rat) - 8 = 1 := by norm_num
    simpa [h9] using h

/-- C8: the Aggregator does not mutate its input table, and running it a
second time on the table it hands back yields the same aggregates. -/
theorem c8_aggregator_idempotent (df : List Row) :
    (calcAggregatesProc df).2 = df ∧
    calcAggregatesProc ((calcAggregatesProc df).2) = calcAggregatesProc df :=
  ⟨rfl, rfl⟩

/-- C10: with `GOOGLE_API_KEY` unset, `_generate_summary` returns the
literal `"Error: GOOGLE_API_KEY not set"`, `generate_summary_for_eval`
writes that string as the summary and returns `True`, and the experiment
tally counts the item as successful, not failed. -/
theorem c10_missing_api_key_counts_successful (files : List String)
    (call : Except String String) :
    generateSummary false call = "Error: GOOGLE_API_KEY not set" ∧
    generateSummaryForEvalDir (some files) false call =
      (some "Error: GOOGLE_API_KEY not set", true) ∧
    generateSummariesForExperiment [some files] false call = (1, 0) := by
  refine ⟨rfl, rfl, ?_⟩
  simp [generateSummariesForExperiment, generateSummaryForEvalDir]

end RaA
